import Mathlib

/-!
Verification development for the automated browser tester
(`test.py` interaction service and the older `server.py` endpoint).

The Python source is embedded shallowly: pure string processing is
translated to executable Lean functions; the browser, the reasoning
service and the event loop are modelled by explicit state passing, with
the outcomes of external calls (script evaluation, command execution)
supplied as inputs.
-/

namespace BrowserTester

/-! ## String helpers

The Python functions `str.strip`, `str.split`, `in`, `str.replace` and slicing are
modelled by structurally recursive functions over character lists so that
all definitions evaluate inside the kernel. -/

/-- Whitespace recognised by the Python function `str.strip`. -/
def isWsChar (c : Char) : Bool :=
  c = ' ' || c = '\t' || c = '\n' || c = '\r' || c = '\x0b' || c = '\x0c'

/-- Python `str.strip()`. -/
def pyStrip (s : String) : String :=
  String.mk (((s.toList.dropWhile isWsChar).reverse.dropWhile isWsChar).reverse)

/-- Split a character list at every occurrence of `sep` (Python `str.split(sep)`). -/
def splitOnCharAux (sep : Char) : List Char → List Char → List (List Char)
  | [], acc => [acc.reverse]
  | c :: cs, acc =>
    if c = sep then acc.reverse :: splitOnCharAux sep cs []
    else splitOnCharAux sep cs (c :: acc)

/-- Python `s.split(sep)` for a one-character separator. -/
def splitOnChar (sep : Char) (s : String) : List String :=
  (splitOnCharAux sep s.toList []).map String.mk

/-- Boolean prefix test on character lists. -/
def isPrefixOfCl : List Char → List Char → Bool
  | [], _ => true
  | _ :: _, [] => false
  | a :: as, b :: bs => a = b && isPrefixOfCl as bs

/-- Boolean substring test on character lists. -/
def isInfixOfCl (needle : List Char) : List Char → Bool
  | [] => isPrefixOfCl needle []
  | c :: rest => isPrefixOfCl needle (c :: rest) || isInfixOfCl needle rest

/-- Python `sub in s`. -/
def strIncludes (s sub : String) : Bool :=
  isInfixOfCl sub.toList s.toList

/-- Python `s.startswith(pre)`. -/
def startsWithStr (pre s : String) : Bool :=
  isPrefixOfCl pre.toList s.toList

/-- Replace every non-overlapping occurrence of `pat` (non-empty) by `repl`,
left to right; the fuel argument bounds the recursion by the input length. -/
def replaceClAux (pat repl : List Char) : Nat → List Char → List Char
  | _, [] => []
  | 0, hay => hay
  | n + 1, c :: rest =>
    if pat ≠ [] && isPrefixOfCl pat (c :: rest) then
      repl ++ replaceClAux pat repl n ((c :: rest).drop pat.length)
    else
      c :: replaceClAux pat repl n rest

/-- Python `s.replace(pat, repl)`. -/
def strReplace (s pat repl : String) : String :=
  String.mk (replaceClAux pat.toList repl.toList s.toList.length s.toList)

/-- Python slicing `s[:n]`. -/
def takeStr (n : Nat) (s : String) : String :=
  String.mk (s.toList.take n)

/-! ## JSON values and a model of `json.loads` / `json.dumps`

The parser covers the JSON subset the reasoning service is told to emit
(objects, arrays, strings with simple escapes, integers, booleans, null);
floats and unicode escapes are out of scope of the model. -/

/-- JSON values as produced by `json.loads`. -/
inductive JsonVal where
  | jstr (s : String)
  | jnum (n : Int)
  | jbool (b : Bool)
  | jnull
  | jarr (xs : List JsonVal)
  | jobj (fields : List (String × JsonVal))
deriving Repr

/-- A decoded JSON object (a Python `dict`), as an ordered field list. -/
abbrev Jobj := List (String × JsonVal)

/-- Whitespace skipped by the JSON grammar. -/
def jsonWsChar (c : Char) : Bool :=
  c = ' ' || c = '\t' || c = '\n' || c = '\r'

/-- Skip JSON whitespace. -/
def skipJsonWs (l : List Char) : List Char := l.dropWhile jsonWsChar

/-- Parse the body of a JSON string (after the opening quote); returns the
decoded characters and the remainder after the closing quote. -/
def pJString : List Char → Option (List Char × List Char)
  | [] => none
  | c :: rest =>
    if c = '"' then some ([], rest)
    else if c = '\\' then
      match rest with
      | [] => none
      | e :: rest2 =>
        let decoded : Char :=
          if e = 'n' then '\n' else if e = 't' then '\t' else if e = 'r' then '\r' else e
        match pJString rest2 with
        | some (cs, r) => some (decoded :: cs, r)
        | none => none
    else
      match pJString rest with
      | some (cs, r) => some (c :: cs, r)
      | none => none

/-- Digit test for the JSON number grammar. -/
def isDigitCh (c : Char) : Bool := '0' ≤ c && c ≤ '9'

/-- Split a character list into its leading digits and the rest. -/
def takeDigits : List Char → (List Char × List Char)
  | [] => ([], [])
  | c :: cs =>
    if isDigitCh c then
      let (d, r) := takeDigits cs
      (c :: d, r)
    else ([], c :: cs)

/-- Value of a digit string. -/
def digitsToNatAux (acc : Nat) : List Char → Nat
  | [] => acc
  | c :: cs => digitsToNatAux (acc * 10 + (c.toNat - 48)) cs

/-- Parse a JSON integer (the model omits floats). -/
def pJNumber : List Char → Option (Int × List Char)
  | '-' :: rest =>
    let (d, r) := takeDigits rest
    if d.isEmpty then none else some (-(Int.ofNat (digitsToNatAux 0 d)), r)
  | l =>
    let (d, r) := takeDigits l
    if d.isEmpty then none else some (Int.ofNat (digitsToNatAux 0 d), r)

mutual

/-- Parse one JSON value; the fuel bounds nesting depth. -/
def pJVal : Nat → List Char → Option (JsonVal × List Char)
  | 0, _ => none
  | fu + 1, l =>
    match skipJsonWs l with
    | [] => none
    | c :: rest =>
      if c = '"' then
        match pJString rest with
        | some (cs, r) => some (.jstr (String.mk cs), r)
        | none => none
      else if c = '\x7b' then
        match skipJsonWs rest with
        | '\x7d' :: r2 => some (.jobj [], r2)
        | l2 =>
          match pJMembers fu l2 with
          | some (fs, r2) => some (.jobj fs, r2)
          | none => none
      else if c = '[' then
        match skipJsonWs rest with
        | ']' :: r2 => some (.jarr [], r2)
        | l2 =>
          match pJItems fu l2 with
          | some (xs, r2) => some (.jarr xs, r2)
          | none => none
      else if isPrefixOfCl ['t', 'r', 'u', 'e'] (c :: rest) then
        some (.jbool true, (c :: rest).drop 4)
      else if isPrefixOfCl ['f', 'a', 'l', 's', 'e'] (c :: rest) then
        some (.jbool false, (c :: rest).drop 5)
      else if isPrefixOfCl ['n', 'u', 'l', 'l'] (c :: rest) then
        some (.jnull, (c :: rest).drop 4)
      else
        match pJNumber (c :: rest) with
        | some (n, r) => some (.jnum n, r)
        | none => none

/-- Parse the members of a JSON object (after the opening brace, first member onward). -/
def pJMembers : Nat → List Char → Option (Jobj × List Char)
  | 0, _ => none
  | fu + 1, l =>
    match skipJsonWs l with
    | '"' :: rest =>
      match pJString rest with
      | some (kcs, r1) =>
        match skipJsonWs r1 with
        | ':' :: r2 =>
          match pJVal fu r2 with
          | some (v, r3) =>
            match skipJsonWs r3 with
            | ',' :: r4 =>
              match pJMembers fu r4 with
              | some (fs, r5) => some ((String.mk kcs, v) :: fs, r5)
              | none => none
            | '\x7d' :: r4 => some ([(String.mk kcs, v)], r4)
            | _ => none
          | none => none
        | _ => none
      | none => none
    | _ => none

/-- Parse the items of a JSON array (after the opening bracket, first item onward). -/
def pJItems : Nat → List Char → Option (List JsonVal × List Char)
  | 0, _ => none
  | fu + 1, l =>
    match pJVal fu l with
    | some (v, r1) =>
      match skipJsonWs r1 with
      | ',' :: r2 =>
        match pJItems fu r2 with
        | some (xs, r3) => some (v :: xs, r3)
        | none => none
      | ']' :: r2 => some ([v], r2)
      | _ => none
    | none => none

end

/-- Model of Python `json.loads`: parse one value and demand that only
whitespace follows (Python raises on trailing data, modelled as `none`). -/
def jLoads (s : String) : Option JsonVal :=
  match pJVal (2 * s.length + 4) s.toList with
  | some (v, rest) => if (skipJsonWs rest).isEmpty then some v else none
  | none => none

/-- Python `dict.get(k)`; on duplicate keys `json.loads` keeps the last one. -/
def objGet (d : Jobj) (k : String) : Option JsonVal :=
  match d.reverse.find? (fun p => p.1 == k) with
  | some p => some p.2
  | none => none

/-- Escape a character for JSON output. -/
def jsonEscapeChar (c : Char) : List Char :=
  if c = '"' then ['\\', '"']
  else if c = '\\' then ['\\', '\\']
  else if c = '\n' then ['\\', 'n']
  else [c]

/-- Escape a string for JSON output. -/
def jsonEscape (s : String) : String :=
  String.mk ((s.toList.map jsonEscapeChar).flatten)

mutual

/-- Model of Python `json.dumps` with its default separators. -/
def jsonDumps : JsonVal → String
  | .jstr s => "\"" ++ jsonEscape s ++ "\""
  | .jnum n => toString n
  | .jbool b => if b then "true" else "false"
  | .jnull => "null"
  | .jarr xs => "[" ++ String.intercalate ", " (jsonDumpsList xs) ++ "]"
  | .jobj fs => "\x7b" ++ String.intercalate ", " (jsonDumpsFields fs) ++ "\x7d"

/-- Serialise the items of a JSON array. -/
def jsonDumpsList : List JsonVal → List String
  | [] => []
  | x :: xs => jsonDumps x :: jsonDumpsList xs

/-- Serialise the members of a JSON object. -/
def jsonDumpsFields : List (String × JsonVal) → List String
  | [] => []
  | (k, v) :: fs => ("\"" ++ jsonEscape k ++ "\": " ++ jsonDumps v) :: jsonDumpsFields fs

end

/-! ## ResponseParser (`test.py`, `ResponseParser.parse_javascript_response`)

The reply is split into stripped non-blank lines; the first line is the
action payload, the second the hint for the next prompt. -/

/-- Python `[line.strip() for line in response.split(backslash-n) if line.strip()]`. -/
def nonBlankLines (response : String) : List String :=
  ((splitOnChar '\n' response).map pyStrip).filter (fun l => l ≠ "")

/-- Defensive removal of markdown code fences:
`first_line.replace("```json", "").replace("```", "").strip()`,
applied only when the line contains a fence. -/
def stripCodeFences (first : String) : String :=
  if strIncludes first "```" then
    pyStrip (strReplace (strReplace first "```json" "") "```" "")
  else first

/-- Python `command_dict.get("action") == "completed"`. -/
def actionIsCompleted (d : Jobj) : Bool :=
  match objGet d "action" with
  | some (.jstr a) => a = "completed"
  | _ => false

/-- Model of `ResponseParser.parse_javascript_response`.  A JSON decode
failure, and likewise a first line whose JSON value is not an object (in
Python `.get` then raises `AttributeError`, caught by the enclosing
handler), yield `(none, none, false)`; the function never raises. -/
def parse_javascript_response (response : String) :
    Option Jobj × Option String × Bool :=
  match nonBlankLines response with
  | [] => (none, none, false)
  | first :: rest =>
    match jLoads (stripCodeFences first) with
    | none => (none, none, false)
    | some (.jobj d) =>
      if actionIsCompleted d then (some d, none, true)
      else
        let nextCommand := match rest with
          | [] => "Continue with the task"
          | n :: _ => n
        (some d, some nextCommand, false)
    | some _ => (none, none, false)

/-- Closed vocabulary of the structured Command variant set: the `action`
values accepted by `JavaScriptCommandExecutor.execute_command` and listed
in the system prompt (spec section 3 / 4.2). -/
def knownActions : List String :=
  ["goto", "click", "fill", "select", "press_key", "wait", "wait_element",
   "switch_tab", "close_tab", "close_other_tabs", "completed"]

/-- Modelled from the spec: a decoded object is a structurally valid
Command exactly when its `action` field is a string in the closed
vocabulary.  (The source has no such validator in the parser; this
definition is the spec-side yardstick the parser is compared against.) -/
def isStructuredCommandObj (d : Jobj) : Bool :=
  match objGet d "action" with
  | some (.jstr a) => knownActions.contains a
  | _ => false

/-! ## Free-text evaluation paths

`server.py` (`interact_command`) always passes the first non-blank reply
line to Python `eval`; `test.py` (`CommandExecutor.execute`) does the same
after a method-name allow-list check.  The models record the exact string
that reaches `eval`. -/

/-- What `interact_command` in `server.py` does with the raw reply text. -/
inductive ServerStep where
  | evalCode (code : String)
  | exceptionPath
deriving Repr, DecidableEq

/-- Model of the reply handling in `interact_command` of `server.py`:
`command_line = next(line.strip() for line in response.split("\n") if line.strip())`,
optional `await` removal, then `eval(command_line, exec_globals)`.
`evalCode c` means the host evaluates the reply-derived text `c` as code. -/
def server_interact_command (response : String) : ServerStep :=
  match nonBlankLines response with
  | [] => .exceptionPath
  | l :: _ =>
    let commandLine := if strIncludes l "await" then pyStrip (strReplace l "await" "") else l
    .evalCode commandLine

/-- Outcome of `CommandExecutor.execute` in `test.py`. -/
inductive LegacyExecOutcome where
  | evalInvoked (code : String)
  | rejected (msg : String)
deriving Repr, DecidableEq

/-- Allow-list of `CommandExecutor.execute`. -/
def allowed_methods : List String :=
  ["goto", "click", "fill", "press", "wait_for_timeout",
   "wait_for_load_state", "wait_for_selector", "get_by_role",
   "get_by_text", "get_by_label", "locator", "keyboard",
   "wait_for", "is_visible", "is_enabled", "count",
   "first", "last", "nth", "filter", "accessibility"]

/-- Model of `CommandExecutor.execute` (the legacy Playwright-command mode
of `test.py`): strip, require the `page.` prefix, extract the method name
as `command.split("(")[0].split(".")[1]`, check the allow-list, then call
`eval(command, safe_globals, ...)`.  `evalInvoked c` means `eval` runs on
the reply-derived text `c`. -/
def CommandExecutor_execute (command : String) : LegacyExecOutcome :=
  let command := pyStrip command
  if !startsWithStr "page." command then
    .rejected "Command must start with page."
  else if !strIncludes command "." then
    .rejected "Method is not allowed"
  else
    match (splitOnChar '.' ((splitOnChar '(' command).headD "")).get? 1 with
    | none => .rejected "IndexError"
    | some m =>
      if allowed_methods.contains m then .evalInvoked command
      else .rejected "Method is not allowed"

/-! ## DOMInspector (`test.py`, `DOMInspector.get_page_elements`)

The page is modelled as a list of DOM elements in document order; string
attribute fields use `""` for an absent attribute, matching the
`el.attr || null` idiom of the injected script. -/

/-- A DOM element as seen by the injected extraction script. -/
structure DomElement where
  /-- Value of `el.tagName.toLowerCase()`. -/
  tag : String
  rectWidth : Nat
  rectHeight : Nat
  cssVisibility : String
  cssDisplay : String
  typeAttr : String
  idAttr : String
  classAttr : String
  nameAttr : String
  placeholder : String
  value : String
  textContent : String
  ariaLabel : String
  role : String
  href : String
  target : String
  hasOnclick : Bool
  /-- Option texts of a native `select` element. -/
  selectOptions : List String
deriving Repr, DecidableEq

/-- The `querySelectorAll` selector list of the extraction script. -/
def matchesSelectors (el : DomElement) : Bool :=
  ["input", "button", "a", "textarea", "select"].contains el.tag ||
  ["button", "link", "textbox", "combobox", "listbox", "option"].contains el.role ||
  el.hasOnclick || el.typeAttr = "submit"

/-- Visibility test of the extraction script. -/
def isVisibleEl (el : DomElement) : Bool :=
  0 < el.rectWidth && 0 < el.rectHeight &&
  el.cssVisibility ≠ "hidden" && el.cssDisplay ≠ "none"

/-- The `info` object pushed by the extraction script, after its cleanup
pass deleted `null`/empty fields. -/
structure ElementInfo where
  index : Nat
  tag : String
  typeAttr : Option String
  idAttr : Option String
  classAttr : Option String
  nameAttr : Option String
  placeholder : Option String
  value : Option String
  text : Option String
  ariaLabel : Option String
  role : Option String
  href : Option String
  target : Option String
  opensInNewTab : Bool
  options : List String
  isDropdown : Bool
deriving Repr, DecidableEq

/-- Conversion `s || null` on a string attribute. -/
def optOf (s : String) : Option String := if s = "" then none else some s

/-- Build the descriptor for the element at position `idx` of the matched
node list, mirroring the script field for field. -/
def buildInfo (idx : Nat) (el : DomElement) : ElementInfo :=
  let opts := if el.tag = "select" && el.selectOptions ≠ [] then
      ((el.selectOptions.map pyStrip).take 10)
    else []
  { index := idx
    tag := el.tag
    typeAttr := optOf el.typeAttr
    idAttr := optOf el.idAttr
    classAttr := optOf el.classAttr
    nameAttr := optOf el.nameAttr
    placeholder := optOf el.placeholder
    value := optOf el.value
    text := optOf (takeStr 100 (pyStrip el.textContent))
    ariaLabel := optOf el.ariaLabel
    role := optOf el.role
    href := optOf el.href
    target := optOf el.target
    opensInNewTab := el.tag = "a" && el.target = "_blank"
    options := opts
    isDropdown := (el.tag = "select" && el.selectOptions ≠ []) ||
      el.role = "combobox" || el.role = "listbox" }

/-- Count of a present optional field. -/
def optCount (o : Option String) : Nat := if o.isSome then 1 else 0

/-- Number of keys of the cleaned `info` object beyond `index` and `tag`
(the script keeps an element only when `Object.keys(info).length > 2`). -/
def extraKeyCount (i : ElementInfo) : Nat :=
  optCount i.typeAttr + optCount i.idAttr + optCount i.classAttr +
  optCount i.nameAttr + optCount i.placeholder + optCount i.value +
  optCount i.text + optCount i.ariaLabel + optCount i.role +
  optCount i.href + optCount i.target +
  (if i.opensInNewTab then 1 else 0) +
  (if i.options ≠ [] then 1 else 0) +
  (if i.isDropdown then 1 else 0)

/-- The element inventory computed by the injected script: visible matched
elements with at least one informative attribute, in document order,
capped by `elements.slice(0, 50)`. -/
def extractElements (dom : List DomElement) : List ElementInfo :=
  (((((dom.filter matchesSelectors).enum).filter
      (fun p => isVisibleEl p.2 && 0 < extraKeyCount (buildInfo p.1 p.2))).map
    (fun p => buildInfo p.1 p.2)).take 50)

/-- Python-side formatting of one descriptor line. -/
def formatElem (e : ElementInfo) : String :=
  let details : List String :=
    (match e.typeAttr with | some t => ["type=" ++ t] | none => []) ++
    (match e.idAttr with | some t => ["id=" ++ t] | none => []) ++
    (match e.nameAttr with | some t => ["name=" ++ t] | none => []) ++
    (match e.placeholder with | some t => ["placeholder=\"" ++ t ++ "\""] | none => []) ++
    (match e.text with
      | some t => if e.isDropdown then [] else ["text=\"" ++ takeStr 50 t ++ "\""]
      | none => []) ++
    (match e.ariaLabel with | some t => ["aria-label=\"" ++ t ++ "\""] | none => []) ++
    (match e.role with | some t => ["role=" ++ t] | none => []) ++
    (if e.opensInNewTab then ["⚠️ OPENS_IN_NEW_TAB (target=_blank)"] else []) ++
    (if e.isDropdown then
      if e.options ≠ [] then
        let shown := String.intercalate ", " (e.options.take 5)
        let os := if 5 < e.options.length then
            shown ++ ", ... (" ++ toString e.options.length ++ " total)"
          else shown
        ["🔽 DROPDOWN options=[" ++ os ++ "]"]
      else ["🔽 DROPDOWN"]
    else []) ++
    (match e.classAttr with
      | some t => if e.isDropdown then [] else ["class=\"" ++ takeStr 30 t ++ "\""]
      | none => [])
  "[" ++ toString e.index ++ "] " ++ e.tag ++
    (if details ≠ [] then " - " ++ String.intercalate ", " details else "") ++ "\n"

/-- Input to `get_page_elements`: either `page.evaluate` raises, or it
returns the view of the DOM the script computes. -/
inductive ExtractOutcome where
  | raises (msg : String)
  | dom (elements : List DomElement)
deriving Repr

/-- Model of `DOMInspector.get_page_elements`: a total function — every
evaluation error is caught and yields a fixed string, so no exception ever
reaches the interaction loop. -/
def get_page_elements : ExtractOutcome → String
  | .raises _ => "Failed to extract page elements."
  | .dom dom =>
    let elements := extractElements dom
    if elements.isEmpty then "No interactive elements found on the page."
    else
      "**Visible Interactive Elements on Page:**\n\n" ++
        String.join (elements.map formatElem)

/-! ## JavaScriptExecutor.click_element (`test.py`)

This embeds the `if (element)` branch of the injected click script: the
part that decides whether to rewrite the `target`/`rel` attributes of the link
attributes around the synthetic click, and what it restores afterwards.
Selector resolution happens before this branch and is not needed by the
claims about attribute mutation. -/

/-- The attributes of the resolved element that the click script reads and
writes (`tagName` is the raw DOM value, uppercase for links). -/
structure DomLinkEl where
  tagName : String
  target : String
  rel : String
deriving Repr, DecidableEq

/-- The flag object the script returns to Python. -/
structure ClickOutcome where
  success : Bool
  openedInNewTab : Bool
  wasModified : Bool
deriving Repr, DecidableEq

/-- The check `element.tagName === "A" && (element.target === "_blank" || element.rel?.includes("noopener"))`. -/
def alreadyOpensInNewTabCheck (el : DomLinkEl) : Bool :=
  el.tagName = "A" && (el.target = "_blank" || strIncludes el.rel "noopener")

/-- Model of the found-element branch of the click script.  Returns the
script result, the attributes of the element at the moment the mouse events
are dispatched, and its attributes after the script returns.  In the
forced-new-tab branch the script saves `element.target`, sets
`target="_blank"` and `rel="noopener noreferrer"`, clicks, and then
restores only `target` to the saved value. -/
def click_element_found (el : DomLinkEl) (openInNewTab : Bool) :
    ClickOutcome × DomLinkEl × DomLinkEl :=
  let already := alreadyOpensInNewTabCheck el
  if el.tagName = "A" && openInNewTab && !already then
    let originalTarget := el.target
    let duringClick : DomLinkEl := { el with target := "_blank", rel := "noopener noreferrer" }
    let afterClick : DomLinkEl := { duringClick with target := originalTarget }
    ({ success := true, openedInNewTab := true, wasModified := true },
      duringClick, afterClick)
  else
    ({ success := true, openedInNewTab := already, wasModified := false }, el, el)

/-! ## TabManager (`test.py`)

Tab state of a session: `pages` is `browser_context.pages` (Playwright
keeps only open pages in this list, so the redundant source-side
`is_closed()` filters are the identity here); `current` is the id of
`session.page`, which may refer to an already-closed page and then does
not occur in `pages`.  Page ids model object identity, so a well-formed
state never repeats an id. -/

/-- One open page of the browsing context. -/
structure PageRec where
  pid : Nat
  title : String
  url : String
deriving Repr, DecidableEq

/-- Tab-relevant session state. -/
structure TabState where
  pages : List PageRec
  current : Option Nat
deriving Repr, DecidableEq

/-- One tab snapshot returned by `get_all_pages`. -/
structure TabInfo where
  index : Nat
  title : String
  url : String
  isCurrent : Bool
deriving Repr, DecidableEq

/-- Model of `TabManager.get_all_pages`: enumerate the open
pages, truncate titles to 100 characters, and mark the current page. -/
def get_all_pages (s : TabState) : List TabInfo :=
  s.pages.enum.map (fun p =>
    { index := p.1
      title := takeStr 100 p.2.title
      url := p.2.url
      isCurrent := s.current == some p.2.pid })

/-- Model of `TabManager.switch_to_tab`: the index is resolved against the
live page list at call time; out of range is a failure, not an exception. -/
def switch_to_tab (s : TabState) (tabIndex : Nat) : Bool × TabState :=
  if h : tabIndex < s.pages.length then
    (true, { s with current := some (s.pages.get ⟨tabIndex, h⟩).pid })
  else
    (false, s)

/-- Model of `TabManager.close_tab`.  With no index: close the current
page (a no-op failure when it is absent or already closed) and promote the
first remaining open page.  With an index: close that page of the live
open-page list and promote only when it was the current one. -/
def close_tab (s : TabState) (tabIndex : Option Nat) : Bool × TabState :=
  match tabIndex with
  | none =>
    match s.current with
    | some cp =>
      if (s.pages.map PageRec.pid).contains cp then
        let remaining := s.pages.filter (fun p => p.pid != cp)
        match remaining with
        | r :: rest => (true, { pages := r :: rest, current := some r.pid })
        | [] => (true, { pages := [], current := some cp })
      else (false, s)
    | none => (false, s)
  | some i =>
    if h : i < s.pages.length then
      let ptc := s.pages.get ⟨i, h⟩
      let wasCurrent := s.current == some ptc.pid
      let pages2 := s.pages.filter (fun p => p.pid != ptc.pid)
      if wasCurrent then
        match s.pages.filter (fun p => p.pid != ptc.pid) with
        | r :: rest => (true, { pages := r :: rest, current := some r.pid })
        | [] => (true, { pages := pages2, current := s.current })
      else (true, { pages := pages2, current := s.current })
    else (false, s)

/-! ## SessionManager and the status endpoint (`test.py`)

Sessions are a map from id to record; time is modelled in minutes. -/

/-- The session fields touched by the registry and the status endpoint. -/
structure SessionRec where
  createdAt : Nat
  lastActivity : Nat
  commandsExecuted : List String
  hasPage : Bool
deriving Repr, DecidableEq

/-- The `sessions` dict of the registry, keyed by session id. -/
abbrev SessionMap := List (String × SessionRec)

/-- Python `self.sessions.get(session_id)`: first entry with the key. -/
def lookupSession : SessionMap → String → Option SessionRec
  | [], _ => none
  | p :: rest, sid => if p.1 == sid then some p.2 else lookupSession rest sid

/-- In-place mutation of the stored record for `sid`. -/
def updateSession (m : SessionMap) (sid : String) (s : SessionRec) : SessionMap :=
  m.map (fun p => if p.1 == sid then (p.1, s) else p)

/-- Model of `SessionManager.get_session`: every successful lookup stamps
`last_activity = datetime.now()` on the stored session. -/
def get_session (now : Nat) (m : SessionMap) (sid : String) :
    Option SessionRec × SessionMap :=
  match lookupSession m sid with
  | some s => (some { s with lastActivity := now },
      updateSession m sid { s with lastActivity := now })
  | none => (none, m)

/-- Response of `GET /session/(id)/status`. -/
structure StatusResp where
  sessionId : String
  existsFlag : Bool
  active : Bool
  commandsExecutedCount : Nat
  lastActivity : Option Nat
deriving Repr, DecidableEq

/-- Model of the `get_session_status` endpoint, which performs its lookup
through `SessionManager.get_session`. -/
def get_session_status (now : Nat) (m : SessionMap) (sid : String) :
    StatusResp × SessionMap :=
  match get_session now m sid with
  | (none, m2) =>
    ({ sessionId := sid, existsFlag := false, active := false,
       commandsExecutedCount := 0, lastActivity := none }, m2)
  | (some s, m2) =>
    ({ sessionId := sid, existsFlag := true, active := s.hasPage,
       commandsExecutedCount := s.commandsExecuted.length,
       lastActivity := some s.lastActivity }, m2)

/-- Constant `Config.SESSION_TIMEOUT_MINUTES`. -/
def SESSION_TIMEOUT_MINUTES : Nat := 30

/-- Model of one pass of `SessionManager.cleanup_expired_sessions`: drop
every session with `now - last_activity > timedelta(minutes=30)`. -/
def cleanup_expired_sessions (now : Nat) (m : SessionMap) : SessionMap :=
  m.filter (fun p => !(SESSION_TIMEOUT_MINUTES < now - p.2.lastActivity))

/-- One polling round: a status request at time `t` followed by a cleanup
sweep at the same time. -/
def pollThenCleanup (sid : String) (m : SessionMap) (t : Nat) : SessionMap :=
  cleanup_expired_sessions t (get_session_status t m sid).2

/-! ## Interaction loop (`test.py`, `interact_command`)

The loop is modelled in its default JavaScript-execution mode.  Each
iteration consumes one reasoning-service reply together with the boolean
outcome the command executor would report for it; the browser itself is
outside the model.  `LoopResult` mirrors the three `InteractResponse`
returns of the endpoint. -/

/-- Constant `Config.MAX_RETRIES`. -/
def MAX_RETRIES : Nat := 5

/-- The session fields the loop reads and writes. -/
structure LoopState where
  retryCount : Nat
  actionDone : Bool
  commandsExecuted : List String
  lastCommand : Option String
deriving Repr, DecidableEq

/-- Terminal outcome of one `interact_command` invocation.
`successResult` is the final `status="success"` return, `failureResult`
the `status="failure"` returns (with their error strings);
`noMoreReplies` is a model artifact for traces that end while the loop
still awaits a reply. -/
inductive LoopResult where
  | failureResult (commandsExecuted : List String) (error : String)
  | successResult (commandsExecuted : List String)
  | noMoreReplies (st : LoopState)
deriving Repr, DecidableEq

/-- One reasoning-service reply and the executor outcome for its command
(`True`/`False` from `JavaScriptCommandExecutor.execute_command`). -/
abbrev ReplyEvent := String × Bool

/-- String rendering of `command_dict.get("action")` inside the error
message f-string (`None` when the key is absent). -/
def actionName (d : Jobj) : String :=
  match objGet d "action" with
  | some (.jstr s) => s
  | some _ => "non-string-action"
  | none => "None"

/-- Result of one iteration of the `while` body. -/
inductive IterStep where
  | next (st : LoopState)
  | done (r : LoopResult)
deriving Repr, DecidableEq

/-- One iteration of the loop body in JavaScript mode: parse the reply;
on completion break to the success return; on a missing or empty command
dict (`if not command_dict:`) count a retry and continue; otherwise record
`last_command`, execute, and either append the command and reset the
counter or run the `except` path, which increments the counter and fails
once it reaches `MAX_RETRIES`. -/
def loopBody (maxRetries : Nat) (st : LoopState) (ev : ReplyEvent) : IterStep :=
  match parse_javascript_response ev.1 with
  | (cmdDict, _nextCmd, isCompleted) =>
    if isCompleted then
      .done (.successResult st.commandsExecuted)
    else
      match cmdDict with
      | none => .next { st with retryCount := st.retryCount + 1 }
      | some d =>
        if d.isEmpty then
          .next { st with retryCount := st.retryCount + 1 }
        else
          let commandStr := jsonDumps (.jobj d)
          if ev.2 then
            let st2 := { st with
              commandsExecuted := st.commandsExecuted ++ [commandStr],
              lastCommand := some commandStr,
              retryCount := 0 }
            if maxRetries ≤ st2.retryCount then
              .done (.failureResult st2.commandsExecuted "Max retries reached")
            else .next st2
          else
            let errorMsg := "JavaScript command execution failed: " ++ actionName d
            let st2 := { st with
              lastCommand := some commandStr,
              retryCount := st.retryCount + 1 }
            if maxRetries ≤ st2.retryCount then
              .done (.failureResult st2.commandsExecuted
                ("Max retries reached. Last error: " ++ errorMsg))
            else .next st2

/-- The `while not session.action_done and session.retry_count < MAX_RETRIES`
loop; leaving through the loop condition reaches the final
`status="success"` return. -/
def interactLoopGo (maxRetries : Nat) : LoopState → List ReplyEvent → LoopResult
  | st, [] =>
    if st.actionDone || maxRetries ≤ st.retryCount then .successResult st.commandsExecuted
    else .noMoreReplies st
  | st, ev :: rest =>
    if st.actionDone || maxRetries ≤ st.retryCount then .successResult st.commandsExecuted
    else
      match loopBody maxRetries st ev with
      | .done r => r
      | .next st2 => interactLoopGo maxRetries st2 rest

/-- The per-goal reset performed by the endpoint before the loop:
`session.action_done = False; session.retry_count = 0`. -/
def resetForNewGoal (st : LoopState) : LoopState :=
  { st with actionDone := false, retryCount := 0 }

/-- Model of one `interact_command` invocation on an initialised session. -/
def interact_command (st : LoopState) (events : List ReplyEvent) : LoopResult :=
  interactLoopGo MAX_RETRIES (resetForNewGoal st) events

/-- Session state trace: the loop state after each consumed reply. -/
def loopTrace (maxRetries : Nat) : LoopState → List ReplyEvent → List LoopState
  | _, [] => []
  | st, ev :: rest =>
    if st.actionDone || maxRetries ≤ st.retryCount then []
    else
      match loopBody maxRetries st ev with
      | .done _ => []
      | .next st2 => st2 :: loopTrace maxRetries st2 rest

/-- Loop state of a freshly created session. -/
def freshLoopState : LoopState :=
  { retryCount := 0, actionDone := false, commandsExecuted := [], lastCommand := none }

/-! ## Concrete scenario data used by the theorems below -/

/-- A well-formed Click reply, as the system prompt requests it. -/
def clickCommandJson : String :=
  "\x7b\"action\": \"click\", \"selector\": \"Login\", \"selector_type\": \"text\"\x7d"

/-- The object `json.loads` produces for `clickCommandJson`. -/
def clickCommandObj : Jobj :=
  [("action", .jstr "click"), ("selector", .jstr "Login"), ("selector_type", .jstr "text")]

/-- Three open tabs with ids 0, 1, 2; tab 1 is current. -/
def tabScenario : TabState :=
  { pages := [⟨0, "t0", "u0"⟩, ⟨1, "t1", "u1"⟩, ⟨2, "t2", "u2"⟩], current := some 1 }

/-- A visible native selection control with twelve options. -/
def selectSampleEl : DomElement :=
  { tag := "select", rectWidth := 10, rectHeight := 10,
    cssVisibility := "visible", cssDisplay := "block",
    typeAttr := "", idAttr := "country", classAttr := "", nameAttr := "country",
    placeholder := "", value := "", textContent := "", ariaLabel := "", role := "",
    href := "", target := "", hasOnclick := false,
    selectOptions := ["o1", "o2", "o3", "o4", "o5", "o6", "o7", "o8", "o9", "o10", "o11", "o12"] }

/-- A one-element page treated as the document. -/
def domSample : List DomElement := [selectSampleEl]

/-- A registry holding one session last active at minute 1. -/
def sessionMapSample : SessionMap :=
  [("sid", { createdAt := 0, lastActivity := 1, commandsExecuted := ["c"], hasPage := true })]

/-! ## Helper lemmas -/

/-- A descriptor never carries more than the first ten option labels. -/
theorem buildInfo_options_length_le (idx : Nat) (el : DomElement) :
    (buildInfo idx el).options.length ≤ 10 := by
  unfold buildInfo
  dsimp only
  split
  · exact List.length_take_le _ _
  · simp

/-- Updating the stored record changes what the next lookup returns. -/
theorem lookupSession_update (m : SessionMap) (sid : String) (s s2 : SessionRec)
    (hl : lookupSession m sid = some s) :
    lookupSession (updateSession m sid s2) sid = some s2 := by
  induction m with
  | nil => simp [lookupSession] at hl
  | cons p rest ih =>
    cases hp : p.1 == sid with
    | true => simp [lookupSession, updateSession, hp]
    | false =>
      have hl2 : lookupSession rest sid = some s := by
        simpa [lookupSession, hp] using hl
      simpa [lookupSession, updateSession, hp] using ih hl2

/-- A lookup target that passes the filter is still found afterwards. -/
theorem lookupSession_filter (m : SessionMap) (sid : String) (s : SessionRec)
    (f : String × SessionRec → Bool)
    (hl : lookupSession m sid = some s) (hf : f (sid, s) = true) :
    lookupSession (m.filter f) sid = some s := by
  induction m with
  | nil => simp [lookupSession] at hl
  | cons p rest ih =>
    cases hp : p.1 == sid with
    | true =>
      have hps : p.1 = sid := eq_of_beq hp
      have hpv : p.2 = s := by simpa [lookupSession, hp] using hl
      have hfp : f p = true := by
        have hpe : p = (sid, s) := by
          cases p with
          | mk a b => simp only at hps hpv; rw [hps, hpv]
        rw [hpe]; exact hf
      simp [List.filter_cons, hfp, lookupSession, hp, hpv]
    | false =>
      have hl2 : lookupSession rest sid = some s := by
        simpa [lookupSession, hp] using hl
      cases hfp : f p with
      | true => simp [List.filter_cons, hfp, lookupSession, hp, ih hl2]
      | false => simp [List.filter_cons, hfp, ih hl2]

/-- The registry state after a status request is the stamped update. -/
theorem get_session_status_snd (now : Nat) (m : SessionMap) (sid : String) (s : SessionRec)
    (hl : lookupSession m sid = some s) :
    (get_session_status now m sid).2 = updateSession m sid { s with lastActivity := now } := by
  simp [get_session_status, get_session, hl]

/-- A session polled at `now` survives any cleanup sweep run within the
timeout window after the poll. -/
theorem status_keeps_alive (now t : Nat) (m : SessionMap) (sid : String) (s : SessionRec)
    (hl : lookupSession m sid = some s) (ht : t ≤ now + SESSION_TIMEOUT_MINUTES) :
    lookupSession (cleanup_expired_sessions t (get_session_status now m sid).2) sid =
      some { s with lastActivity := now } := by
  rw [get_session_status_snd now m sid s hl]
  unfold cleanup_expired_sessions
  apply lookupSession_filter
  · exact lookupSession_update m sid s _ hl
  · have h30 : SESSION_TIMEOUT_MINUTES = 30 := rfl
    rw [h30] at ht
    simp only [h30, Bool.not_eq_true', decide_eq_false_iff_not]
    omega

/-- Polling the status endpoint immediately before each sweep keeps the
session alive through arbitrarily many sweeps. -/
theorem poll_preserves (sid : String) :
    ∀ (ts : List Nat) (m : SessionMap), (lookupSession m sid).isSome = true →
      (lookupSession (ts.foldl (pollThenCleanup sid) m) sid).isSome = true := by
  intro ts
  induction ts with
  | nil => intro m h; simpa using h
  | cons t rest ih =>
    intro m h
    obtain ⟨s, hs⟩ := Option.isSome_iff_exists.mp h
    have h2 := status_keeps_alive t t m sid s hs (Nat.le_add_right _ _)
    have h3 : (lookupSession (pollThenCleanup sid m t) sid).isSome = true := by
      unfold pollThenCleanup; rw [h2]; rfl
    simpa [List.foldl] using ih _ h3

/-! ## Claims -/

/-- C1: the spec demands that every reasoning-service command go through
the closed structured Command vocabulary only, with no reachable path
that evaluates reply text as host-automation code.  The code violates
this: `interact_command` in `server.py` passes the first reply line to
`eval` unconditionally, and the legacy `CommandExecutor.execute` of `test.py`
(reachable whenever `Config.USE_JAVASCRIPT_EXECUTION` is off) also ends
in `eval` after only a method-name allow-list check.  This theorem
evaluates both models at a concrete reply and shows the text reaching
`eval`. -/
theorem C1_free_text_eval_reachable :
    server_interact_command "await page.goto(\"https://attacker.example\")" =
      ServerStep.evalCode "page.goto(\"https://attacker.example\")" ∧
    CommandExecutor_execute "page.goto(\"https://attacker.example\")" =
      LegacyExecOutcome.evalInvoked "page.goto(\"https://attacker.example\")" :=
  ⟨rfl, rfl⟩

/-- C2: the claim says retry exhaustion always terminates with a failure
status carrying the successful commands and the last error.  The code
violates this when the `MAX_RETRIES`-th consecutive recoverable failure
is a malformed reply: that path leaves the loop through the `while`
condition and reaches the final `status="success"` return with no error.
First conjunct: five consecutive malformed replies yield the success
result.  Second conjunct: for contrast, five consecutive execution
failures do yield the failure result with the last error. -/
theorem C2_malformed_exhaustion_returns_success :
    interact_command freshLoopState
        (List.replicate MAX_RETRIES ("this is not json", true)) =
      LoopResult.successResult [] ∧
    interact_command freshLoopState
        (List.replicate MAX_RETRIES (clickCommandJson, false)) =
      LoopResult.failureResult []
        "Max retries reached. Last error: JavaScript command execution failed: click" :=
  ⟨rfl, rfl⟩

/-- C3 (counterexample): the error path of `get_page_elements` does not
return the same sentinel as the no-qualifying-elements path — the two
strings differ. -/
theorem C3_counterexample :
    get_page_elements (.raises "boom") ≠ get_page_elements (.dom []) := by
  decide

/-- C3 (amended): every extraction error is caught and converted into the
fixed string "Failed to extract page elements." — extraction is total and
never propagates the exception — but that string is distinct from the
"no interactive elements" sentinel returned for a page with no qualifying
elements. -/
theorem C3_extraction_error_caught :
    (∀ msg, get_page_elements (.raises msg) = "Failed to extract page elements.") ∧
    get_page_elements (.dom []) = "No interactive elements found on the page." ∧
    "Failed to extract page elements." ≠ "No interactive elements found on the page." :=
  ⟨fun _ => rfl, rfl, by decide⟩

/-- C4 (counterexample): clicking a plain link (no new-tab behaviour)
with `open_in_new_tab` requested leaves a persistent mutation: the `rel`
attribute stays "noopener noreferrer" instead of its original value. -/
theorem C4_counterexample :
    (click_element_found { tagName := "A", target := "", rel := "" } true).2.2 ≠
      { tagName := "A", target := "", rel := "" } ∧
    (click_element_found { tagName := "A", target := "", rel := "" } true).2.2.rel =
      "noopener noreferrer" := by
  exact ⟨by decide, rfl⟩

/-- C4 (amended): for a link that already opens in a new tab the click
modifies no attribute; for a link lacking new-tab behaviour with
`open_in_new_tab` requested, new-tab semantics are forced for the single
activation (`target="_blank"`, `rel="noopener noreferrer"` at dispatch
time) and afterwards `target` is restored to its pre-click value, but the
`rel` mutation persists. -/
theorem C4_click_newtab_restore :
    (∀ el b, alreadyOpensInNewTabCheck el = true →
      click_element_found el b =
        ({ success := true, openedInNewTab := true, wasModified := false }, el, el)) ∧
    (∀ el : DomLinkEl, el.tagName = "A" → alreadyOpensInNewTabCheck el = false →
      (click_element_found el true).2.1.target = "_blank" ∧
      (click_element_found el true).2.1.rel = "noopener noreferrer" ∧
      (click_element_found el true).2.2.target = el.target ∧
      (click_element_found el true).2.2.rel = "noopener noreferrer") := by
  constructor
  · intro el b h
    simp [click_element_found, h]
  · intro el h1 h2
    refine ⟨?_, ?_, ?_, ?_⟩ <;> simp [click_element_found, h1, h2]

/-- C4 (witness): the amended statement at two concrete links. -/
theorem C4_click_newtab_restore_witness :
    click_element_found { tagName := "A", target := "_blank", rel := "" } true =
      ({ success := true, openedInNewTab := true, wasModified := false },
        { tagName := "A", target := "_blank", rel := "" },
        { tagName := "A", target := "_blank", rel := "" }) ∧
    (click_element_found { tagName := "A", target := "", rel := "" } true).2.2.target = "" :=
  ⟨C4_click_newtab_restore.1 _ true (by decide),
   (C4_click_newtab_restore.2 { tagName := "A", target := "", rel := "" } rfl (by decide)).2.2.1⟩

/-- C5 (counterexample): the first line `{}` decodes as JSON but is not a
structurally valid Command (its `action` is absent from the closed
vocabulary), yet the interpreter does not return `(none, none, false)`:
it returns the empty object as the command, with the default hint
"Continue with the task" — which also differs from the quoted
default "continue with the task". -/
theorem C5_counterexample :
    (parse_javascript_response "\x7b\x7d").1.isSome = true ∧
    (parse_javascript_response "\x7b\x7d").1.map isStructuredCommandObj = some false ∧
    (parse_javascript_response "\x7b\x7d").2.1 = some "Continue with the task" ∧
    (parse_javascript_response "\x7b\x7d").2.2 = false ∧
    "Continue with the task" ≠ "continue with the task" :=
  ⟨rfl, rfl, rfl, rfl, by decide⟩

/-- C5 (amended): if the first non-blank line fails to parse as JSON, or
parses to a non-object value, the interpreter returns `(none, none,
false)` without raising; any JSON object is accepted as the command with
no vocabulary validation; an object whose `action` is "completed"
short-circuits to `(dict, none, true)` regardless of any second line;
otherwise the second non-blank line is the hint, defaulting to
"Continue with the task" when absent. -/
theorem C5_parse_reply :
    (∀ response, nonBlankLines response = [] →
      parse_javascript_response response = (none, none, false)) ∧
    (∀ response first rest, nonBlankLines response = first :: rest →
      jLoads (stripCodeFences first) = none →
      parse_javascript_response response = (none, none, false)) ∧
    (∀ response first rest v, nonBlankLines response = first :: rest →
      jLoads (stripCodeFences first) = some v → (∀ d, v ≠ JsonVal.jobj d) →
      parse_javascript_response response = (none, none, false)) ∧
    (∀ response first rest d, nonBlankLines response = first :: rest →
      jLoads (stripCodeFences first) = some (JsonVal.jobj d) →
      actionIsCompleted d = true →
      parse_javascript_response response = (some d, none, true)) ∧
    (∀ response first next rest d, nonBlankLines response = first :: next :: rest →
      jLoads (stripCodeFences first) = some (JsonVal.jobj d) →
      actionIsCompleted d = false →
      parse_javascript_response response = (some d, some next, false)) ∧
    (∀ response first d, nonBlankLines response = [first] →
      jLoads (stripCodeFences first) = some (JsonVal.jobj d) →
      actionIsCompleted d = false →
      parse_javascript_response response = (some d, some "Continue with the task", false)) := by
  refine ⟨?_, ?_, ?_, ?_, ?_, ?_⟩
  · intro response h
    simp [parse_javascript_response, h]
  · intro response first rest h1 h2
    simp [parse_javascript_response, h1, h2]
  · intro response first rest v h1 h2 h3
    cases v with
    | jobj d => exact absurd rfl (h3 d)
    | jstr s => simp [parse_javascript_response, h1, h2]
    | jnum n => simp [parse_javascript_response, h1, h2]
    | jbool b => simp [parse_javascript_response, h1, h2]
    | jnull => simp [parse_javascript_response, h1, h2]
    | jarr xs => simp [parse_javascript_response, h1, h2]
  · intro response first rest d h1 h2 h3
    simp [parse_javascript_response, h1, h2, h3]
  · intro response first next rest d h1 h2 h3
    simp [parse_javascript_response, h1, h2, h3]
  · intro response first d h1 h2 h3
    simp [parse_javascript_response, h1, h2, h3]

/-- C5 (witness): the amended statement at concrete replies. -/
theorem C5_parse_reply_witness :
    parse_javascript_response "not json at all" = (none, none, false) ∧
    parse_javascript_response "\x7b\"action\": \"completed\"\x7d\nignored second line" =
      (some [("action", JsonVal.jstr "completed")], none, true) ∧
    parse_javascript_response "\x7b\"action\": \"goto\", \"value\": \"https://x\"\x7d\nnext step" =
      (some [("action", JsonVal.jstr "goto"), ("value", JsonVal.jstr "https://x")],
        some "next step", false) :=
  ⟨C5_parse_reply.2.1 _ "not json at all" [] rfl rfl,
   C5_parse_reply.2.2.2.1 _ _ ["ignored second line"] _ rfl rfl rfl,
   C5_parse_reply.2.2.2.2.1 _ _ "next step" [] _ rfl rfl rfl⟩

/-- C6: the retry counter is reset to zero together with
`completed=false` before each goal; a malformed reply (and likewise an
empty command dict) increments it by exactly one; a successfully
executed command resets it to exactly zero and records the command; a
recoverable execution failure below the cap increments it by exactly
one; and in the scenario "malformed first reply, then a valid Click" the
counter trace is 1 then 0. -/
theorem C6_retry_counter :
    (∀ st : LoopState,
      (resetForNewGoal st).retryCount = 0 ∧ (resetForNewGoal st).actionDone = false) ∧
    (∀ (st : LoopState) (ev : ReplyEvent),
      parse_javascript_response ev.1 = (none, none, false) →
      loopBody MAX_RETRIES st ev = .next { st with retryCount := st.retryCount + 1 }) ∧
    (∀ (st : LoopState) (resp : String) (h2 : Option String) (d : Jobj),
      parse_javascript_response resp = (some d, h2, false) → d ≠ [] →
      loopBody MAX_RETRIES st (resp, true) =
        .next { st with
          commandsExecuted := st.commandsExecuted ++ [jsonDumps (.jobj d)],
          lastCommand := some (jsonDumps (.jobj d)),
          retryCount := 0 }) ∧
    (∀ (st : LoopState) (resp : String) (h2 : Option String) (d : Jobj),
      parse_javascript_response resp = (some d, h2, false) → d ≠ [] →
      st.retryCount + 1 < MAX_RETRIES →
      loopBody MAX_RETRIES st (resp, false) =
        .next { st with
          lastCommand := some (jsonDumps (.jobj d)),
          retryCount := st.retryCount + 1 }) ∧
    ((loopTrace MAX_RETRIES (resetForNewGoal freshLoopState)
        [("garbage reply", true), (clickCommandJson, true)]).map
      LoopState.retryCount = [1, 0]) := by
  refine ⟨fun st => ⟨rfl, rfl⟩, ?_, ?_, ?_, rfl⟩
  · intro st ev h
    simp [loopBody, h]
  · intro st resp h2 d hp hd
    simp [loopBody, hp, List.isEmpty_iff, hd, MAX_RETRIES]
  · intro st resp h2 d hp hd hlt
    simp [loopBody, hp, List.isEmpty_iff, hd, Nat.not_le.mpr hlt]

/-- C6 (witness): the per-step statements at concrete replies. -/
theorem C6_retry_counter_witness :
    loopBody MAX_RETRIES freshLoopState ("garbage reply", true) =
      .next { freshLoopState with retryCount := 1 } ∧
    loopBody MAX_RETRIES { freshLoopState with retryCount := 1 } (clickCommandJson, true) =
      .next { freshLoopState with
        commandsExecuted := [jsonDumps (.jobj clickCommandObj)],
        lastCommand := some (jsonDumps (.jobj clickCommandObj)),
        retryCount := 0 } ∧
    loopBody MAX_RETRIES freshLoopState (clickCommandJson, false) =
      .next { freshLoopState with
        lastCommand := some (jsonDumps (.jobj clickCommandObj)),
        retryCount := 1 } :=
  ⟨C6_retry_counter.2.1 _ _ rfl,
   C6_retry_counter.2.2.1 _ _ (some "Continue with the task") clickCommandObj rfl
     (List.cons_ne_nil _ _),
   C6_retry_counter.2.2.2.1 _ _ (some "Continue with the task") clickCommandObj rfl
     (List.cons_ne_nil _ _) (by decide)⟩

/-- C7: closing tab 0 while tabs 0, 1, 2 are open and tab 1 is current
leaves exactly two open tabs with the previously-current page still
current; in general closing by index promotes a new current page only
when the closed tab was current, and closing with no index closes the
current page and promotes the first remaining open page. -/
theorem C7_close_tab_semantics :
    close_tab tabScenario (some 0) =
      (true, { pages := [⟨1, "t1", "u1"⟩, ⟨2, "t2", "u2"⟩], current := some 1 }) ∧
    (close_tab tabScenario (some 0)).2.pages.length = 2 ∧
    (∀ (s : TabState) (i : Nat) (h : i < s.pages.length),
      s.current ≠ some s.pages[i].pid →
      close_tab s (some i) =
        (true, { pages := s.pages.filter (fun p => p.pid != s.pages[i].pid),
                 current := s.current })) ∧
    (∀ (s : TabState) (i : Nat) (h : i < s.pages.length) (r : PageRec) (rest : List PageRec),
      s.current = some s.pages[i].pid →
      s.pages.filter (fun p => p.pid != s.pages[i].pid) = r :: rest →
      close_tab s (some i) = (true, { pages := r :: rest, current := some r.pid })) ∧
    (∀ (s : TabState) (cp : Nat) (r : PageRec) (rest : List PageRec),
      s.current = some cp →
      (s.pages.map PageRec.pid).contains cp = true →
      s.pages.filter (fun p => p.pid != cp) = r :: rest →
      close_tab s none = (true, { pages := r :: rest, current := some r.pid })) := by
  refine ⟨rfl, rfl, ?_, ?_, ?_⟩
  · intro s i h hne
    simp [close_tab, h, hne]
  · intro s i h r rest hcur hfe
    simp [close_tab, h, hcur, hfe]
  · intro s cp r rest hcur hcont hfe
    simp only [close_tab, hcur, hcont, if_true, hfe]

/-- C7 (witness): the general statements at concrete tab states. -/
theorem C7_close_tab_semantics_witness :
    close_tab tabScenario (some 2) =
      (true, { pages := [⟨0, "t0", "u0"⟩, ⟨1, "t1", "u1"⟩], current := some 1 }) ∧
    close_tab { tabScenario with current := some 0 } (some 0) =
      (true, { pages := [⟨1, "t1", "u1"⟩, ⟨2, "t2", "u2"⟩], current := some 1 }) ∧
    close_tab tabScenario none =
      (true, { pages := [⟨0, "t0", "u0"⟩, ⟨2, "t2", "u2"⟩], current := some 0 }) :=
  ⟨C7_close_tab_semantics.2.2.1 tabScenario 2 (by decide) (by decide),
   C7_close_tab_semantics.2.2.2.1 { tabScenario with current := some 0 } 0 (by decide)
     ⟨1, "t1", "u1"⟩ [⟨2, "t2", "u2"⟩] rfl rfl,
   C7_close_tab_semantics.2.2.2.2 tabScenario 1 ⟨0, "t0", "u0"⟩ [⟨2, "t2", "u2"⟩]
     rfl (by decide) rfl⟩

/-- C8: the grounding inventory holds at most 50 descriptors taken in
document order (it is a sublist of the per-element descriptor stream),
each native selection control reports at most 10 option labels, and a
page with no qualifying elements yields the explicit sentinel string. -/
theorem C8_grounding_caps (dom : List DomElement) :
    (extractElements dom).length ≤ 50 ∧
    (∀ info ∈ extractElements dom, info.options.length ≤ 10) ∧
    List.Sublist (extractElements dom)
      (((dom.filter matchesSelectors).enum).map (fun p => buildInfo p.1 p.2)) ∧
    (extractElements dom = [] →
      get_page_elements (.dom dom) = "No interactive elements found on the page.") := by
  refine ⟨?_, ?_, ?_, ?_⟩
  · exact List.length_take_le _ _
  · intro info hmem
    have hmem2 := List.mem_of_mem_take hmem
    rcases List.mem_map.mp hmem2 with ⟨p, hp, rfl⟩
    exact buildInfo_options_length_le p.1 p.2
  · exact (List.take_sublist _ _).trans (List.Sublist.map _ (List.filter_sublist _))
  · intro h
    simp [get_page_elements, h]

/-- C8 (witness): the caps at a concrete page and the sentinel at an
empty page. -/
theorem C8_grounding_caps_witness :
    (extractElements domSample).length ≤ 50 ∧
    (buildInfo 0 selectSampleEl).options.length ≤ 10 ∧
    get_page_elements (.dom []) = "No interactive elements found on the page." :=
  ⟨(C8_grounding_caps domSample).1,
   (C8_grounding_caps domSample).2.1 (buildInfo 0 selectSampleEl) (by decide),
   (C8_grounding_caps []).2.2.2 rfl⟩

/-- C9: the index of each tab snapshot equals the 0-based position of
that page in the open-page list of the context at call time, and that same index resolves
to the same page in `switch_to_tab` (which makes it current) and in
`close_tab` (which removes exactly it). -/
theorem C9_tab_snapshot_indices (s : TabState) (i : Nat) (h : i < s.pages.length) :
    (get_all_pages s).length = s.pages.length ∧
    (get_all_pages s)[i]? =
      some { index := i, title := takeStr 100 s.pages[i].title,
             url := s.pages[i].url,
             isCurrent := s.current == some s.pages[i].pid } ∧
    switch_to_tab s i = (true, { s with current := some s.pages[i].pid }) ∧
    (close_tab s (some i)).2.pages =
      s.pages.filter (fun p => p.pid != s.pages[i].pid) := by
  refine ⟨?_, ?_, ?_, ?_⟩
  · simp [get_all_pages]
  · have he : i < (s.pages.enum).length := by
      simpa [List.enum_length] using h
    rw [get_all_pages, List.getElem?_map, List.getElem?_eq_getElem he, List.getElem_enum]
    rfl
  · unfold switch_to_tab
    rw [dif_pos h]
    rfl
  · by_cases hbc : s.current = some s.pages[i].pid
    · rcases hfe : s.pages.filter (fun p => p.pid != s.pages[i].pid) with _ | ⟨r, rest⟩
      · simp [close_tab, h, hbc, hfe]
      · simp [close_tab, h, hbc, hfe]
    · simp [close_tab, h, hbc]

/-- C9 (witness): the snapshot/index agreement on the three-tab state. -/
theorem C9_tab_snapshot_indices_witness :
    (get_all_pages tabScenario)[1]? =
      some { index := 1, title := "t1", url := "u1", isCurrent := true } ∧
    switch_to_tab tabScenario 2 = (true, { tabScenario with current := some 2 }) :=
  ⟨(C9_tab_snapshot_indices tabScenario 1 (by decide)).2.1,
   (C9_tab_snapshot_indices tabScenario 2 (by decide)).2.2.1⟩

/-- C10: every registry lookup — in particular the one behind the
read-only `GET /session/(id)/status` endpoint — stamps the session field
`last_activity` with the current time, so the stamped session survives
any cleanup sweep within the timeout window, and a session that is polled
before each sweep survives arbitrarily many sweeps. -/
theorem C10_status_poll_postpones_expiry :
    (∀ (now : Nat) (m : SessionMap) (sid : String) (s : SessionRec),
      lookupSession m sid = some s →
      lookupSession (get_session_status now m sid).2 sid =
        some { s with lastActivity := now }) ∧
    (∀ (now t : Nat) (m : SessionMap) (sid : String) (s : SessionRec),
      lookupSession m sid = some s → t ≤ now + SESSION_TIMEOUT_MINUTES →
      lookupSession (cleanup_expired_sessions t (get_session_status now m sid).2) sid =
        some { s with lastActivity := now }) ∧
    (∀ (ts : List Nat) (m : SessionMap) (sid : String),
      (lookupSession m sid).isSome = true →
      (lookupSession (ts.foldl (pollThenCleanup sid) m) sid).isSome = true) := by
  refine ⟨?_, ?_, ?_⟩
  · intro now m sid s hl
    rw [get_session_status_snd now m sid s hl]
    exact lookupSession_update m sid s _ hl
  · intro now t m sid s hl ht
    exact status_keeps_alive now t m sid s hl ht
  · intro ts m sid h
    exact poll_preserves sid ts m h

/-- C10 (witness): polling at minute 100 keeps the sample session alive
through a sweep at minute 130, and repeated polls keep it alive
indefinitely. -/
theorem C10_status_poll_postpones_expiry_witness :
    lookupSession (cleanup_expired_sessions 130 (get_session_status 100 sessionMapSample "sid").2)
        "sid" =
      some { createdAt := 0, lastActivity := 100, commandsExecuted := ["c"], hasPage := true } ∧
    (lookupSession (([5, 50, 90, 120] : List Nat).foldl (pollThenCleanup "sid") sessionMapSample)
        "sid").isSome = true :=
  ⟨C10_status_poll_postpones_expiry.2.1 100 130 sessionMapSample "sid"
      { createdAt := 0, lastActivity := 1, commandsExecuted := ["c"], hasPage := true }
      rfl (by decide),
   C10_status_poll_postpones_expiry.2.2 [5, 50, 90, 120] sessionMapSample "sid" rfl⟩

end BrowserTester
